import Mathlib

/-!
Verification of the reference-data cache and hydration layer of the
lunchmoney-mcp-v2 server (src/cache.ts and src/format.ts), shallowly
embedded in Lean 4.

The cache is a module-level `Cache | null` variable holding four lookup
tables (a JS `Map<number, T>` per resource type).  We embed the state as
`Option Cache`, a table as an association list built exactly the way the
fetchers build their Map (later `set` calls for the same id win), and each
fallible operation as an `Except CacheError` value.  A fetcher outcome
(`fetchCategories()` etc.) is an input of the model: `Except ApiError (List r)`,
the ordered record sequence the API returned, or the `ApiError` that
`handleError` threw.
-/

namespace LunchmoneyMcp

/-- `ApiError` from src/client.ts: an `Error` subclass carrying the HTTP
status and a message.  `handleError` always throws one of these. -/
structure ApiError where
  status : Nat
  message : String
deriving DecidableEq, Repr

/-- The two kinds of exceptions the cache layer can raise: the plain
`Error("Cache not initialized. Call initCache() first.")` thrown by
`getCache`, and an `ApiError` propagated from a fetcher. -/
inductive CacheError where
  | notInitialized
  | api (e : ApiError)
deriving DecidableEq, Repr

/-- `categoryObject`, restricted to the fields the cache and the formatters
under verification read (`id`, `name`). -/
structure Category where
  id : Nat
  name : String
deriving DecidableEq, Repr

/-- `tagObject`, restricted to the fields read (`id`, `name`). -/
structure Tag where
  id : Nat
  name : String
deriving DecidableEq, Repr

/-- `manualAccountObject`, restricted to the fields read (`id`, `name`,
`display_name`).  `display_name` is nullable in the schema. -/
structure ManualAccount where
  id : Nat
  name : String
  display_name : Option String
deriving DecidableEq, Repr

/-- `plaidAccountObject`, restricted to the fields read (`id`, `name`,
`display_name`). -/
structure PlaidAccount where
  id : Nat
  name : String
  display_name : Option String
deriving DecidableEq, Repr

/-- The fetchers build a `Map<number, T>` by iterating the returned list in
order and calling `map.set(r.id, r)`; a later record with the same id
overwrites an earlier one.  We embed the Map as an association list with
the latest record in front, so `List.lookup` (first match) agrees with
`Map.get`. -/
def buildTable {α : Type} (key : α → Nat) (rs : List α) : List (Nat × α) :=
  rs.foldl (fun m r => (key r, r) :: m) []

/-- The `Cache` interface of src/cache.ts: four independent tables. -/
structure Cache where
  categories : List (Nat × Category)
  tags : List (Nat × Tag)
  manualAccounts : List (Nat × ManualAccount)
  plaidAccounts : List (Nat × PlaidAccount)
deriving DecidableEq, Repr

/-- The outcome of the four snapshot fetchers, one `Except` per resource
type: the record list the API returned, or the `ApiError` thrown. -/
structure FetchResults where
  categories : Except ApiError (List Category)
  tags : Except ApiError (List Tag)
  manualAccounts : Except ApiError (List ManualAccount)
  plaidAccounts : Except ApiError (List PlaidAccount)
deriving Repr

/-- The resource-type union accepted by `refreshCache`. -/
inductive ResourceType where
  | categories
  | tags
  | manualAccounts
  | plaidAccounts
deriving DecidableEq, Repr

/-- `initCache()`: awaits `Promise.all` of the four fetchers and then
publishes the assembled `Cache` in one assignment.  If any fetch rejects,
`Promise.all` rejects, the assignment never runs and the state is left as
it was.  (`Promise.all` rejects with whichever fetch fails first; the model
picks the first failing fetch in field order — no claim depends on which
error is surfaced, only that one is.) -/
def initCache (f : FetchResults) (s : Option Cache) :
    Except CacheError Unit × Option Cache :=
  match f.categories, f.tags, f.manualAccounts, f.plaidAccounts with
  | .ok cs, .ok ts, .ok ms, .ok ps =>
      (.ok (), some ⟨buildTable Category.id cs, buildTable Tag.id ts,
                     buildTable ManualAccount.id ms, buildTable PlaidAccount.id ps⟩)
  | .error e, _, _, _ => (.error (.api e), s)
  | _, .error e, _, _ => (.error (.api e), s)
  | _, _, .error e, _ => (.error (.api e), s)
  | _, _, _, .error e => (.error (.api e), s)

/-- `getCache()`: returns the cache or throws
`Error("Cache not initialized. Call initCache() first.")`. -/
def getCache (s : Option Cache) : Except CacheError Cache :=
  match s with
  | none => .error .notInitialized
  | some c => .ok c

/-- `refreshCache(type)`: `getCache()` first (throws when uninitialized),
then re-fetches exactly the one table and assigns it.  When the fetch
throws, the assignment never runs and every table keeps its old value. -/
def refreshCache (t : ResourceType) (f : FetchResults) (s : Option Cache) :
    Except CacheError Unit × Option Cache :=
  match s with
  | none => (.error .notInitialized, none)
  | some c =>
    match t with
    | .categories =>
      match f.categories with
      | .error e => (.error (.api e), some c)
      | .ok rs => (.ok (), some { c with categories := buildTable Category.id rs })
    | .tags =>
      match f.tags with
      | .error e => (.error (.api e), some c)
      | .ok rs => (.ok (), some { c with tags := buildTable Tag.id rs })
    | .manualAccounts =>
      match f.manualAccounts with
      | .error e => (.error (.api e), some c)
      | .ok rs => (.ok (), some { c with manualAccounts := buildTable ManualAccount.id rs })
    | .plaidAccounts =>
      match f.plaidAccounts with
      | .error e => (.error (.api e), some c)
      | .ok rs => (.ok (), some { c with plaidAccounts := buildTable PlaidAccount.id rs })

/-- `categoryName(id)`: `"Uncategorized"` for `null` (before touching the
cache); otherwise `getCache().categories.get(id)?.name ?? "Category #id"`. -/
def categoryName (id : Option Nat) (s : Option Cache) : Except CacheError String :=
  match id with
  | none => .ok "Uncategorized"
  | some i => do
    let c ← getCache s
    pure (((c.categories.lookup i).map Category.name).getD ("Category #" ++ toString i))

/-- `tagNames(ids)`: `getCache()` first, then a per-id map with the
`"Tag #id"` fallback. -/
def tagNames (ids : List Nat) (s : Option Cache) : Except CacheError (List String) := do
  let c ← getCache s
  pure (ids.map fun id => ((c.tags.lookup id).map Tag.name).getD ("Tag #" ++ toString id))

/-- `accountName(manualId, plaidId)`: `getCache()` first; a non-null manual
id is resolved against the manual table only
(`acct?.display_name ?? acct?.name ?? "Manual #id"` — since `name` is
non-null this is `display_name ?? name` when the account exists, else the
fallback); otherwise a non-null plaid id the same way against the plaid
table; `"Cash"` when both are null. -/
def accountName (manualId plaidId : Option Nat) (s : Option Cache) :
    Except CacheError String := do
  let c ← getCache s
  match manualId with
  | some m =>
    match c.manualAccounts.lookup m with
    | some acct => pure (acct.display_name.getD acct.name)
    | none => pure ("Manual #" ++ toString m)
  | none =>
    match plaidId with
    | some p =>
      match c.plaidAccounts.lookup p with
      | some acct => pure (acct.display_name.getD acct.name)
      | none => pure ("Plaid #" ++ toString p)
    | none => pure "Cash"

/-- `transactionObject`, restricted to the fields `formatTransaction`
reads.  `amount` arrives from the API as a decimal string which
`formatAmount` passes through `parseFloat`; we model the parsed JS number
as the exact rational value of that string.  `notes` is nullable; `status`
is a string enum. -/
structure Transaction where
  id : Nat
  date : String
  payee : String
  amount : Rat
  currency : String
  notes : Option String
  status : String
  category_id : Option Nat
  manual_account_id : Option Nat
  plaid_account_id : Option Nat
  tag_ids : List Nat
deriving DecidableEq, Repr

/-- `currencySymbol(code)` from format.ts: a fixed symbol table keyed by
the lower-cased code, defaulting to `CODE ` upper-cased with a trailing
space. -/
def currencySymbol (code : String) : String :=
  match code.toLower with
  | "usd" => "$"
  | "eur" => "€"
  | "gbp" => "£"
  | "jpy" => "¥"
  | "cad" => "CA$"
  | "aud" => "A$"
  | "chf" => "CHF "
  | _ => code.toUpper ++ " "

/-- `Math.abs(num).toFixed(2)` on a non-negative idealized JS number:
round to the nearest hundredth (half away from zero, i.e. half up on the
non-negative arguments this is applied to) and print with exactly two
fraction digits. -/
def toFixed2 (q : Rat) : String :=
  let cents : Int := (q * 100 + 1 / 2).floor
  let whole := cents / 100
  let frac := cents % 100
  toString whole ++ "." ++ (if frac < 10 then "0" else "") ++ toString frac

/-- `formatAmount(amount, currency)`: sign, then symbol, then the absolute
value to two decimals. -/
def formatAmount (amount : Rat) (currency : String) : String :=
  let sym := currencySymbol currency
  let a := toFixed2 |amount|
  if amount < 0 then "-" ++ sym ++ a else sym ++ a

/-- JS `Array.prototype.join("\n")`. -/
def joinNL : List String → String
  | [] => ""
  | [a] => a
  | a :: rest => a ++ "\n" ++ joinNL rest

/-- `formatTransaction(t)` from format.ts, in source evaluation order:
`tagNames` only when `t.tag_ids` is non-empty, then `accountName`, then
`categoryName`; the four template lines are filtered by JS truthiness
(which on strings drops exactly `""`) and joined with newlines. -/
def formatTransaction (t : Transaction) (s : Option Cache) :
    Except CacheError String := do
  let tags ←
    if t.tag_ids.length > 0 then do
      let ns ← tagNames t.tag_ids s
      pure (" [" ++ String.intercalate ", " ns ++ "]")
    else pure ""
  let account ← accountName t.manual_account_id t.plaid_account_id s
  let category ← categoryName t.category_id s
  let notes :=
    match t.notes with
    | some n => if n = "" then "" else "\n  Notes: " ++ n
    | none => ""
  let status := if t.status = "unreviewed" then " (unreviewed)" else ""
  pure (joinNL (List.filter (fun l => l ≠ "")
    [t.date ++ "  " ++ formatAmount t.amount t.currency ++ "  " ++ t.payee,
     "  Category: " ++ category ++ " | Account: " ++ account ++ status ++ tags,
     "  ID: " ++ toString t.id,
     notes]))

/-- The string `categoryName id` returns when the cache is initialized
(proof helper: the ok-value of `categoryName`). -/
def categoryNameVal (id : Option Nat) (c : Cache) : String :=
  match id with
  | none => "Uncategorized"
  | some i => ((c.categories.lookup i).map Category.name).getD ("Category #" ++ toString i)

/-- The strings `tagNames ids` returns when the cache is initialized
(proof helper: the ok-value of `tagNames`). -/
def tagNamesVal (ids : List Nat) (c : Cache) : List String :=
  ids.map fun id => ((c.tags.lookup id).map Tag.name).getD ("Tag #" ++ toString id)

/-- The string `accountName` returns when the cache is initialized
(proof helper: the ok-value of `accountName`). -/
def accountNameVal (manualId plaidId : Option Nat) (c : Cache) : String :=
  match manualId with
  | some m =>
    match c.manualAccounts.lookup m with
    | some acct => acct.display_name.getD acct.name
    | none => "Manual #" ++ toString m
  | none =>
    match plaidId with
    | some p =>
      match c.plaidAccounts.lookup p with
      | some acct => acct.display_name.getD acct.name
      | none => "Plaid #" ++ toString p
    | none => "Cash"

/-- The error thrown by the one fetcher that `refreshCache t` invokes, if
that fetch failed. -/
def fetchFailure (t : ResourceType) (f : FetchResults) : Option ApiError :=
  match t with
  | .categories => match f.categories with | .error e => some e | .ok _ => none
  | .tags => match f.tags with | .error e => some e | .ok _ => none
  | .manualAccounts => match f.manualAccounts with | .error e => some e | .ok _ => none
  | .plaidAccounts => match f.plaidAccounts with | .error e => some e | .ok _ => none

/-! ## Claim theorems -/

/-- Claim C3: with an initialized cache, `categoryName` returns
"Uncategorized" for a null id, the stored name for a present id, the
fallback "Category #id" for an absent id (it never throws), and on the
cache initialized with categories 1 ↦ Food, 2 ↦ Rent it returns "Food",
"Category #5" and "Uncategorized" for ids 1, 5 and null respectively. -/
theorem spec_C3_categoryName_resolution (c : Cache) :
    categoryName none (some c) = .ok "Uncategorized" ∧
    (∀ i cat, c.categories.lookup i = some cat →
      categoryName (some i) (some c) = .ok cat.name) ∧
    (∀ i, c.categories.lookup i = none →
      categoryName (some i) (some c) = .ok ("Category #" ++ toString i)) ∧
    (categoryName (some 1)
      (initCache ⟨.ok [⟨1, "Food"⟩, ⟨2, "Rent"⟩], .ok [], .ok [], .ok []⟩ none).2 =
      .ok "Food") ∧
    (categoryName (some 5)
      (initCache ⟨.ok [⟨1, "Food"⟩, ⟨2, "Rent"⟩], .ok [], .ok [], .ok []⟩ none).2 =
      .ok "Category #5") ∧
    (categoryName none
      (initCache ⟨.ok [⟨1, "Food"⟩, ⟨2, "Rent"⟩], .ok [], .ok [], .ok []⟩ none).2 =
      .ok "Uncategorized") := by
  refine ⟨rfl, ?_, ?_, rfl, rfl, rfl⟩
  · intro i cat h
    simp [categoryName, getCache, h]
  · intro i h
    simp [categoryName, getCache, h]

/-- Claim C3 witness: the general parts evaluated on the scenario cache. -/
theorem spec_C3_categoryName_resolution_witness :
    categoryName (some 2) (some ⟨[(2, ⟨2, "Rent"⟩), (1, ⟨1, "Food"⟩)], [], [], []⟩) =
      .ok "Rent" ∧
    categoryName (some 9) (some ⟨[(2, ⟨2, "Rent"⟩), (1, ⟨1, "Food"⟩)], [], [], []⟩) =
      .ok "Category #9" :=
  ⟨(spec_C3_categoryName_resolution ⟨[(2, ⟨2, "Rent"⟩), (1, ⟨1, "Food"⟩)], [], [], []⟩).2.1
      2 ⟨2, "Rent"⟩ rfl,
   (spec_C3_categoryName_resolution ⟨[(2, ⟨2, "Rent"⟩), (1, ⟨1, "Food"⟩)], [], [], []⟩).2.2.1
      9 rfl⟩

/-- Claim C4 counterexample: as stated the claim is false — in the
uninitialized state `accountName(null, null)` does not return "Cash"; it
throws "Cache not initialized", because `accountName` calls `getCache()`
before looking at its arguments. -/
theorem spec_C4_counterexample :
    accountName none none (none : Option Cache) = .error .notInitialized ∧
    accountName none none (none : Option Cache) ≠ .ok "Cash" := by
  exact ⟨rfl, by simp [accountName, getCache]⟩

/-- Claim C4 amended: for every initialized cache state,
`accountName(null, null)` returns "Cash"; in the uninitialized state the
call throws "Cache not initialized" instead. -/
theorem spec_C4_cash_when_initialized (c : Cache) :
    accountName none none (some c) = .ok "Cash" := rfl

/-- Claim C5: with an initialized cache, `tagNames` returns one string per
input id, in input order with duplicates preserved — the stored name when
present, else "Tag #id" — and on tags 10 ↦ work, `tagNames [10, 20]`
returns ["work", "Tag #20"]. -/
theorem spec_C5_tagNames_per_id (c : Cache) (ids : List Nat) :
    (∃ ns, tagNames ids (some c) = .ok ns ∧ ns.length = ids.length ∧
      ∀ (i : Nat) (id : Nat), ids[i]? = some id →
        ns[i]? = some (((c.tags.lookup id).map Tag.name).getD ("Tag #" ++ toString id))) ∧
    tagNames [10, 20] (some ⟨[], buildTable Tag.id [⟨10, "work"⟩], [], []⟩) =
      .ok ["work", "Tag #20"] := by
  refine ⟨⟨ids.map fun id => ((c.tags.lookup id).map Tag.name).getD ("Tag #" ++ toString id),
    rfl, by simp, ?_⟩, rfl⟩
  intro i id h
  simp [List.getElem?_map, h]

/-- Claim C5 witness: the theorem at the scenario input, with the per-index
hypothesis discharged at index 1. -/
theorem spec_C5_tagNames_per_id_witness :
    ∃ ns, tagNames [10, 20] (some ⟨[], [(10, ⟨10, "work"⟩)], [], []⟩) = .ok ns ∧
      ns.length = 2 ∧ ns[1]? = some "Tag #20" := by
  obtain ⟨⟨ns, hok, hlen, hidx⟩, -⟩ :=
    spec_C5_tagNames_per_id ⟨[], [(10, ⟨10, "work"⟩)], [], []⟩ [10, 20]
  exact ⟨ns, hok, hlen, hidx 1 20 rfl⟩

/-- Claim C9: in the uninitialized state, `categoryName null` alone
succeeds (with "Uncategorized", without consulting the cache); every other
resolution call — `categoryName` on a non-null id, `tagNames` on any list
including the empty one, `accountName` on any arguments including both
null — throws "Cache not initialized". -/
theorem spec_C9_uninitialized_behavior :
    categoryName none (none : Option Cache) = .ok "Uncategorized" ∧
    (∀ i, categoryName (some i) (none : Option Cache) = .error .notInitialized) ∧
    (∀ ids, tagNames ids (none : Option Cache) = .error .notInitialized) ∧
    (∀ m p, accountName m p (none : Option Cache) = .error .notInitialized) :=
  ⟨rfl, fun _ => rfl, fun _ => rfl, fun _ _ => rfl⟩

/-- Claim C10: with an initialized cache and a non-null manual id, the
plaid table is never consulted: an absent manual id yields "Manual #id"
even when the plaid id is present in the plaid table, and the result is
invariant under replacing the plaid table entirely. -/
theorem spec_C10_plaid_never_consulted (c : Cache) (m : Nat) (p : Option Nat)
    (h : c.manualAccounts.lookup m = none) :
    accountName (some m) p (some c) = .ok ("Manual #" ++ toString m) ∧
    ∀ P, accountName (some m) p (some { c with plaidAccounts := P }) =
      accountName (some m) p (some c) := by
  constructor
  · simp [accountName, getCache, bind, Except.bind, h, pure, Except.pure]
  · intro P
    rfl

/-- Claim C10 witness: manual id 5 absent, plaid id 7 present in the plaid
table — the result is still "Manual #5". -/
theorem spec_C10_plaid_never_consulted_witness :
    accountName (some 5) (some 7)
      (some ⟨[], [], [], [(7, ⟨7, "Visa", none⟩)]⟩) = .ok "Manual #5" :=
  (spec_C10_plaid_never_consulted ⟨[], [], [], [(7, ⟨7, "Visa", none⟩)]⟩ 5 (some 7) rfl).1

/-- Claim C1: `initCache` publishes the cache iff all four fetches
succeed — on success the full four-table cache built from the four
snapshots is published; if any one fetch fails, the call fails with an
fetch error, the state stays uninitialized (no partial cache), and
subsequent resolution queries against that state fail loudly with
"Cache not initialized". -/
theorem spec_C1_init_all_or_nothing (f : FetchResults) :
    (∀ cs ts ms ps, f.categories = .ok cs → f.tags = .ok ts →
      f.manualAccounts = .ok ms → f.plaidAccounts = .ok ps →
      initCache f none =
        (.ok (), some ⟨buildTable Category.id cs, buildTable Tag.id ts,
          buildTable ManualAccount.id ms, buildTable PlaidAccount.id ps⟩)) ∧
    (∀ e, (f.categories = .error e ∨ f.tags = .error e ∨
        f.manualAccounts = .error e ∨ f.plaidAccounts = .error e) →
      (∃ e2, (initCache f none).1 = .error (.api e2)) ∧
      (initCache f none).2 = none ∧
      (∀ i ids m p,
        categoryName (some i) (initCache f none).2 = .error .notInitialized ∧
        tagNames ids (initCache f none).2 = .error .notInitialized ∧
        accountName m p (initCache f none).2 = .error .notInitialized)) := by
  obtain ⟨fc, ft, fm, fp⟩ := f
  constructor
  · intro cs ts ms ps h1 h2 h3 h4
    subst h1; subst h2; subst h3; subst h4
    rfl
  · intro e he
    cases fc <;> cases ft <;> cases fm <;> cases fp <;>
      first
        | exact ⟨⟨_, rfl⟩, rfl, fun i ids m p => ⟨rfl, rfl, rfl⟩⟩
        | simp at he

/-- Claim C1 witness: the theorem applied to an all-successful run and to a
run whose tags fetch fails. -/
theorem spec_C1_init_all_or_nothing_witness :
    initCache ⟨.ok [], .ok [], .ok [], .ok []⟩ none = (.ok (), some ⟨[], [], [], []⟩) ∧
    (∃ e2, (initCache ⟨.ok [⟨1, "Food"⟩], .error ⟨500, "tags fetch failed"⟩, .ok [], .ok []⟩
        none).1 = .error (.api e2)) ∧
    (initCache ⟨.ok [⟨1, "Food"⟩], .error ⟨500, "tags fetch failed"⟩, .ok [], .ok []⟩
        none).2 = none :=
  ⟨(spec_C1_init_all_or_nothing ⟨.ok [], .ok [], .ok [], .ok []⟩).1 [] [] [] []
      rfl rfl rfl rfl,
   ((spec_C1_init_all_or_nothing
        ⟨.ok [⟨1, "Food"⟩], .error ⟨500, "tags fetch failed"⟩, .ok [], .ok []⟩).2
      ⟨500, "tags fetch failed"⟩ (Or.inr (Or.inl rfl))).1,
   ((spec_C1_init_all_or_nothing
        ⟨.ok [⟨1, "Food"⟩], .error ⟨500, "tags fetch failed"⟩, .ok [], .ok []⟩).2
      ⟨500, "tags fetch failed"⟩ (Or.inr (Or.inl rfl))).2.1⟩

/-- Claim C2: a successful or failed `refreshCache t` from an initialized
state only ever changes the table for `t`: every other table of the
resulting cache equals its pre-call value. -/
theorem spec_C2_refresh_frame (t : ResourceType) (f : FetchResults) (c c2 : Cache)
    (h : (refreshCache t f (some c)).2 = some c2) :
    (t ≠ .categories → c2.categories = c.categories) ∧
    (t ≠ .tags → c2.tags = c.tags) ∧
    (t ≠ .manualAccounts → c2.manualAccounts = c.manualAccounts) ∧
    (t ≠ .plaidAccounts → c2.plaidAccounts = c.plaidAccounts) := by
  obtain ⟨fc, ft, fm, fp⟩ := f
  cases t <;> cases fc <;> cases ft <;> cases fm <;> cases fp <;>
    simp [refreshCache] at h <;> subst h <;>
    exact ⟨by simp, by simp, by simp, by simp⟩

/-- Claim C2 witness: refreshing tags on a concrete cache leaves the
categories, manual-accounts and plaid-accounts tables unchanged. -/
theorem spec_C2_refresh_frame_witness :
    ([(1, (⟨1, "Food"⟩ : Category))] = [(1, ⟨1, "Food"⟩)] ∧
     ([] : List (Nat × ManualAccount)) = [] ∧
     ([] : List (Nat × PlaidAccount)) = []) := by
  have h := spec_C2_refresh_frame .tags ⟨.ok [], .ok [⟨7, "new"⟩], .ok [], .ok []⟩
    ⟨[(1, ⟨1, "Food"⟩)], [], [], []⟩ ⟨[(1, ⟨1, "Food"⟩)], [(7, ⟨7, "new"⟩)], [], []⟩ rfl
  exact ⟨h.1 (by decide), h.2.2.1 (by decide), h.2.2.2 (by decide)⟩

/-- Claim C6: for a manual account present in the table, `accountName`
prefers `display_name` and falls back to `name` when `display_name` is
null; the scenario — account 3 is (name "Checking", display null) so the
call returns "Checking", and after a manual-accounts refresh whose
snapshot carries display name "Main" the same call returns "Main". -/
theorem spec_C6_manual_account_names (c : Cache) (m : Nat) (acct : ManualAccount)
    (h : c.manualAccounts.lookup m = some acct) :
    accountName (some m) none (some c) = .ok (acct.display_name.getD acct.name) ∧
    accountName (some 3) none
      (some ⟨[], [], buildTable ManualAccount.id [⟨3, "Checking", none⟩], []⟩) =
      .ok "Checking" ∧
    accountName (some 3) none
      (refreshCache .manualAccounts
        ⟨.ok [], .ok [], .ok [⟨3, "Checking", some "Main"⟩], .ok []⟩
        (some ⟨[], [], buildTable ManualAccount.id [⟨3, "Checking", none⟩], []⟩)).2 =
      .ok "Main" := by
  refine ⟨?_, rfl, rfl⟩
  simp [accountName, getCache, bind, Except.bind, pure, Except.pure, h]

/-- Claim C6 witness: the general part at account 3 with a null display
name. -/
theorem spec_C6_manual_account_names_witness :
    accountName (some 3) none
      (some ⟨[], [], [(3, ⟨3, "Checking", none⟩)], []⟩) = .ok "Checking" :=
  (spec_C6_manual_account_names ⟨[], [], [(3, ⟨3, "Checking", none⟩)], []⟩ 3
    ⟨3, "Checking", none⟩ rfl).1

/-- Claim C7: when the single fetch inside `refreshCache t` fails, the
fetch error propagates unchanged to the caller (no retry is modelled or
performed) and the whole cache — in particular the table for `t` — is left
exactly as it was before the call. -/
theorem spec_C7_refresh_failure_keeps_table (t : ResourceType) (f : FetchResults)
    (c : Cache) (e : ApiError) (h : fetchFailure t f = some e) :
    refreshCache t f (some c) = (.error (.api e), some c) := by
  obtain ⟨fc, ft, fm, fp⟩ := f
  cases t <;> cases fc <;> cases ft <;> cases fm <;> cases fp <;>
    simp [fetchFailure] at h <;> subst h <;> rfl

/-- Claim C7 witness: a failing tags fetch leaves the tags table (and the
rest of the cache) untouched and surfaces the error. -/
theorem spec_C7_refresh_failure_keeps_table_witness :
    refreshCache .tags ⟨.ok [], .error ⟨429, "rate limited"⟩, .ok [], .ok []⟩
      (some ⟨[], [(10, ⟨10, "work"⟩)], [], []⟩) =
      (.error (.api ⟨429, "rate limited"⟩), some ⟨[], [(10, ⟨10, "work"⟩)], [], []⟩) :=
  spec_C7_refresh_failure_keeps_table .tags
    ⟨.ok [], .error ⟨429, "rate limited"⟩, .ok [], .ok []⟩
    ⟨[], [(10, ⟨10, "work"⟩)], [], []⟩ ⟨429, "rate limited"⟩ rfl

/-! Helper lemmas for the formatting-layer claim. -/

/-- A string of positive length is not the empty string. -/
theorem ne_empty_of_pos_length (s : String) (h : 0 < s.length) : s ≠ "" := by
  intro he
  rw [he] at h
  exact (by decide : ¬ 0 < ("" : String).length) h

/-- With an initialized cache, `categoryName` succeeds with
`categoryNameVal`. -/
theorem categoryName_some_eq (id : Option Nat) (c : Cache) :
    categoryName id (some c) = .ok (categoryNameVal id c) := by
  cases id <;> rfl

/-- With an initialized cache, `tagNames` succeeds with `tagNamesVal`. -/
theorem tagNames_some_eq (ids : List Nat) (c : Cache) :
    tagNames ids (some c) = .ok (tagNamesVal ids c) := rfl

/-- With an initialized cache, `accountName` succeeds with
`accountNameVal`. -/
theorem accountName_some_eq (m p : Option Nat) (c : Cache) :
    accountName m p (some c) = .ok (accountNameVal m p c) := by
  cases m with
  | some m2 =>
    cases hl : c.manualAccounts.lookup m2 <;>
      simp [accountName, accountNameVal, getCache, bind, Except.bind, pure, Except.pure, hl]
  | none =>
    cases p with
    | some p2 =>
      cases hl : c.plaidAccounts.lookup p2 <;>
        simp [accountName, accountNameVal, getCache, bind, Except.bind, pure, Except.pure, hl]
    | none => rfl

/-- With an initialized cache, `formatTransaction` succeeds, producing the
four filtered lines joined by newlines. -/
theorem formatTransaction_some_eq (t : Transaction) (c : Cache) :
    formatTransaction t (some c) = .ok (joinNL (List.filter (fun l => l ≠ "")
      [t.date ++ "  " ++ formatAmount t.amount t.currency ++ "  " ++ t.payee,
       "  Category: " ++ categoryNameVal t.category_id c ++ " | Account: " ++
         accountNameVal t.manual_account_id t.plaid_account_id c ++
         (if t.status = "unreviewed" then " (unreviewed)" else "") ++
         (if t.tag_ids.length > 0 then
           " [" ++ String.intercalate ", " (tagNamesVal t.tag_ids c) ++ "]" else ""),
       "  ID: " ++ toString t.id,
       match t.notes with
       | some n => if n = "" then "" else "\n  Notes: " ++ n
       | none => ""])) := by
  by_cases hlen : t.tag_ids.length > 0 <;>
    simp only [formatTransaction, tagNames_some_eq, accountName_some_eq,
      categoryName_some_eq, hlen, ite_true, ite_false, bind, Except.bind,
      pure, Except.pure]

/-- Claim C8: with an initialized cache, `formatTransaction` never throws,
and its output contains the "  Category: ..." line with the resolved
category string rendered verbatim — in particular the placeholder
"Category #id" when the category id is absent from the table. -/
theorem spec_C8_format_renders_category_verbatim (t : Transaction) (c : Cache) :
    ∃ out cat acc tg,
      formatTransaction t (some c) = .ok out ∧
      categoryName t.category_id (some c) = .ok cat ∧
      accountName t.manual_account_id t.plaid_account_id (some c) = .ok acc ∧
      ("  Category: " ++ cat ++ " | Account: " ++ acc ++
        (if t.status = "unreviewed" then " (unreviewed)" else "") ++ tg).data <:+:
        out.data ∧
      (∀ i, t.category_id = some i → c.categories.lookup i = none →
        cat = "Category #" ++ toString i) := by
  have htwo : ("  " : String).length = 2 := rfl
  have hcatlit : ("  Category: " : String).length = 12 := rfl
  have hidlit : ("  ID: " : String).length = 6 := rfl
  refine ⟨_, categoryNameVal t.category_id c,
    accountNameVal t.manual_account_id t.plaid_account_id c,
    (if t.tag_ids.length > 0 then
      " [" ++ String.intercalate ", " (tagNamesVal t.tag_ids c) ++ "]" else ""),
    formatTransaction_some_eq t c,
    categoryName_some_eq t.category_id c,
    accountName_some_eq t.manual_account_id t.plaid_account_id c, ?_, ?_⟩
  · set l1 := t.date ++ "  " ++ formatAmount t.amount t.currency ++ "  " ++ t.payee
      with hl1def
    set l2 := "  Category: " ++ categoryNameVal t.category_id c ++ " | Account: " ++
      accountNameVal t.manual_account_id t.plaid_account_id c ++
      (if t.status = "unreviewed" then " (unreviewed)" else "") ++
      (if t.tag_ids.length > 0 then
        " [" ++ String.intercalate ", " (tagNamesVal t.tag_ids c) ++ "]" else "")
      with hl2def
    set l3 := "  ID: " ++ toString t.id with hl3def
    set l4 := (match t.notes with
      | some n => if n = "" then "" else "\n  Notes: " ++ n
      | none => "") with hl4def
    have h1 : l1 ≠ "" := by
      apply ne_empty_of_pos_length
      rw [hl1def]
      simp only [String.length_append, htwo]
      omega
    have h2 : l2 ≠ "" := by
      apply ne_empty_of_pos_length
      rw [hl2def]
      simp only [String.length_append, hcatlit]
      omega
    have h3 : l3 ≠ "" := by
      apply ne_empty_of_pos_length
      rw [hl3def]
      simp only [String.length_append, hidlit]
      omega
    have hfilter : List.filter (fun l => l ≠ "") [l1, l2, l3, l4] =
        l1 :: l2 :: l3 :: List.filter (fun l => l ≠ "") [l4] := by
      simp [List.filter_cons, h1, h2, h3]
    rw [hfilter]
    show l2.data <:+: (joinNL (l1 :: l2 :: l3 :: List.filter (fun l => l ≠ "") [l4])).data
    have hjoin : joinNL (l1 :: l2 :: l3 :: List.filter (fun l => l ≠ "") [l4]) =
        l1 ++ "\n" ++ (l2 ++ "\n" ++ joinNL (l3 :: List.filter (fun l => l ≠ "") [l4])) := rfl
    rw [hjoin]
    exact ⟨(l1 ++ "\n").data,
      ("\n" ++ joinNL (l3 :: List.filter (fun l => l ≠ "") [l4])).data,
      by simp [String.data_append, List.append_assoc]⟩
  · intro i hi hnone
    simp [categoryNameVal, hi, hnone]

/-- Claim C8 witness: the theorem at a concrete transaction whose category
id 42 is absent from the concrete cache. -/
theorem spec_C8_format_renders_category_verbatim_witness :
    ∃ out cat acc tg,
      formatTransaction
        ⟨900, "2025-01-02", "Store", (25 : Rat) / 2, "usd", none, "unreviewed",
         some 42, none, none, []⟩
        (some ⟨[(1, ⟨1, "Food"⟩)], [], [], []⟩) = .ok out ∧
      categoryName (some 42) (some ⟨[(1, ⟨1, "Food"⟩)], [], [], []⟩) = .ok cat ∧
      accountName none none (some ⟨[(1, ⟨1, "Food"⟩)], [], [], []⟩) = .ok acc ∧
      ("  Category: " ++ cat ++ " | Account: " ++ acc ++
        (if ("unreviewed" : String) = "unreviewed" then " (unreviewed)" else "") ++ tg).data <:+:
        out.data ∧
      (∀ i, (some 42 : Option Nat) = some i →
        ([(1, (⟨1, "Food"⟩ : Category))] : List (Nat × Category)).lookup i = none →
        cat = "Category #" ++ toString i) :=
  spec_C8_format_renders_category_verbatim
    ⟨900, "2025-01-02", "Store", (25 : Rat) / 2, "usd", none, "unreviewed",
     some 42, none, none, []⟩
    ⟨[(1, ⟨1, "Food"⟩)], [], [], []⟩

end LunchmoneyMcp
